import Mathlib

/-!
Shallow embedding of the `dnd` crate's `core` module: the four bounded
scalar value types (`AbilityScore`, `AbilityModifier`, `Level`,
`ProficiencyBonus`), the `Ability` and `Skill` enumerations with their
static tables, the `Abilities` record and the `SkillProficiencies` set.

Machine integers are embedded as `Nat` (for `u8`) and `Int` (for `i8`);
wrapping is made explicit where the source's semantics depend on it.
`Result<T, &'static str>` becomes `Except String T`.
-/

deriving instance DecidableEq for Except

/-- Rust `u8 as i8`: two's-complement reinterpretation of a byte. -/
def u8AsI8 (n : Nat) : Int :=
  if n < 128 then (n : Int) else (n : Int) - 256

/-- Wrap an integer into the `i8` range `[-128, 127]` (release-mode
two's-complement overflow of `i8` arithmetic). -/
def wrapI8 (x : Int) : Int :=
  (x + 128) % 256 - 128

/-- Rust `AbilityScore(u8)`: magnitude of an ability, a `u8` in `1..=30`. -/
structure AbilityScore where
  value : Nat
deriving DecidableEq, Repr

/-- Rust `AbilityScore::MIN` -/
def AbilityScore.MIN : AbilityScore := ⟨1⟩

/-- Rust `AbilityScore::MAX` -/
def AbilityScore.MAX : AbilityScore := ⟨30⟩

/-- Rust `AbilityScore::DEFAULT` -/
def AbilityScore.DEFAULT : AbilityScore := ⟨10⟩

/-- Rust `AbilityScore::new_clamped` -/
def AbilityScore.new_clamped (value : Nat) : AbilityScore :=
  if value < AbilityScore.MIN.value then AbilityScore.MIN
  else if value > AbilityScore.MAX.value then AbilityScore.MAX
  else ⟨value⟩

/-- Rust `AbilityScore::try_new` -/
def AbilityScore.try_new (value : Nat) : Except String AbilityScore :=
  if value < AbilityScore.MIN.value then
    Except.error "Ability score cannot be less than 1"
  else if value > AbilityScore.MAX.value then
    Except.error "Ability score cannot be greater than 30"
  else
    Except.ok ⟨value⟩

/-- Rust `AbilityModifier(i8)`: modifier to a D20 test, an `i8` in `-5..=10`. -/
structure AbilityModifier where
  value : Int
deriving DecidableEq, Repr

/-- Rust `AbilityModifier::MIN` -/
def AbilityModifier.MIN : AbilityModifier := ⟨-5⟩

/-- Rust `AbilityModifier::MAX` -/
def AbilityModifier.MAX : AbilityModifier := ⟨10⟩

/-- Rust `AbilityModifier::new_clamped` -/
def AbilityModifier.new_clamped (value : Int) : AbilityModifier :=
  if value < AbilityModifier.MIN.value then AbilityModifier.MIN
  else if value > AbilityModifier.MAX.value then AbilityModifier.MAX
  else ⟨value⟩

/-- Rust `AbilityModifier::try_new` -/
def AbilityModifier.try_new (value : Int) : Except String AbilityModifier :=
  if value < AbilityModifier.MIN.value then
    Except.error "Ability modifier cannot be less than -5"
  else if value > AbilityModifier.MAX.value then
    Except.error "Ability modifier cannot be greater than 10"
  else
    Except.ok ⟨value⟩

/-- Rust `AbilityScore::modifier`: `AbilityModifier::new_clamped((self.value() as i8 - 10) >> 1)`.
The `u8 as i8` cast and the release-mode wrap of the `i8` subtraction are
explicit; `>> 1` on `i8` is an arithmetic shift, i.e. floor division by 2. -/
def AbilityScore.modifier (s : AbilityScore) : AbilityModifier :=
  AbilityModifier.new_clamped (Int.fdiv (wrapI8 (u8AsI8 s.value - 10)) 2)

/-- Rust `Level(u8)`: level of a player character, a `u8` in `1..=20`. -/
structure Level where
  value : Nat
deriving DecidableEq, Repr

/-- Rust `Level::MIN` -/
def Level.MIN : Level := ⟨1⟩

/-- Rust `Level::MAX` -/
def Level.MAX : Level := ⟨20⟩

/-- Rust `Level::new_clamped` -/
def Level.new_clamped (value : Nat) : Level :=
  if value < Level.MIN.value then Level.MIN
  else if value > Level.MAX.value then Level.MAX
  else ⟨value⟩

/-- Rust `Level::try_new` -/
def Level.try_new (value : Nat) : Except String Level :=
  if value < Level.MIN.value then
    Except.error "Level cannot be less than 1"
  else if value > Level.MAX.value then
    Except.error "Level cannot be greater than 20"
  else
    Except.ok ⟨value⟩

/-- Rust `ProficiencyBonus(u8)`: a `u8` in `2..=9`. -/
structure ProficiencyBonus where
  value : Nat
deriving DecidableEq, Repr

/-- Rust `ProficiencyBonus::MIN` -/
def ProficiencyBonus.MIN : ProficiencyBonus := ⟨2⟩

/-- Rust `ProficiencyBonus::MAX` -/
def ProficiencyBonus.MAX : ProficiencyBonus := ⟨9⟩

/-- Rust `ProficiencyBonus::new_clamped` -/
def ProficiencyBonus.new_clamped (value : Nat) : ProficiencyBonus :=
  if value < ProficiencyBonus.MIN.value then ProficiencyBonus.MIN
  else if value > ProficiencyBonus.MAX.value then ProficiencyBonus.MAX
  else ⟨value⟩

/-- Rust `ProficiencyBonus::try_new` -/
def ProficiencyBonus.try_new (value : Nat) : Except String ProficiencyBonus :=
  if value < ProficiencyBonus.MIN.value then
    Except.error "Proficiency bonus cannot be less than 2"
  else if value > ProficiencyBonus.MAX.value then
    Except.error "Proficiency bonus cannot be greater than 9"
  else
    Except.ok ⟨value⟩

/-- The `match self.value() { 1..=4 => 2, ... , _ => unreachable!() }` inside
`Level::proficiency_bonus`; the `unreachable!()` arm is `none`. -/
def Level.bonus_match (v : Nat) : Option Nat :=
  if 1 ≤ v ∧ v ≤ 4 then some 2
  else if 5 ≤ v ∧ v ≤ 8 then some 3
  else if 9 ≤ v ∧ v ≤ 12 then some 4
  else if 13 ≤ v ∧ v ≤ 16 then some 5
  else if 17 ≤ v ∧ v ≤ 20 then some 6
  else if 21 ≤ v ∧ v ≤ 24 then some 7
  else if 25 ≤ v ∧ v ≤ 28 then some 8
  else if 29 ≤ v ∧ v ≤ 30 then some 9
  else none

/-- Rust `Level::proficiency_bonus`: `ProficiencyBonus::new_clamped(match ...)`,
`none` when the `unreachable!()` arm would panic. -/
def Level.proficiency_bonus (l : Level) : Option ProficiencyBonus :=
  (Level.bonus_match l.value).map ProficiencyBonus.new_clamped

/-- The `Ability` enum: six abilities, in declaration order. -/
inductive Ability where
  | Strength
  | Dexterity
  | Constitution
  | Intelligence
  | Wisdom
  | Charisma
deriving DecidableEq, Repr, Fintype

/-- The `Skill` enum: eighteen skills, in declaration order. -/
inductive Skill where
  | Acrobatics
  | AnimalHandling
  | Arcana
  | Athletics
  | Deception
  | History
  | Insight
  | Intimidation
  | Investigation
  | Medicine
  | Nature
  | Perception
  | Performance
  | Persuasion
  | Religion
  | SleightOfHand
  | Stealth
  | Survival
deriving DecidableEq, Repr, Fintype

/-- Rust `Ability::all` -/
def Ability.all : List Ability :=
  [.Strength, .Dexterity, .Constitution, .Intelligence, .Wisdom, .Charisma]

/-- Rust `Ability::name` -/
def Ability.name : Ability → String
  | .Strength => "Strength"
  | .Dexterity => "Dexterity"
  | .Constitution => "Constitution"
  | .Intelligence => "Intelligence"
  | .Wisdom => "Wisdom"
  | .Charisma => "Charisma"

/-- Rust `Ability::abbr` -/
def Ability.abbr : Ability → String
  | .Strength => "STR"
  | .Dexterity => "DEX"
  | .Constitution => "CON"
  | .Intelligence => "INT"
  | .Wisdom => "WIS"
  | .Charisma => "CHA"

/-- Rust `Ability::skills`: the static Ability → Skills table. -/
def Ability.skills : Ability → List Skill
  | .Strength => [.Athletics]
  | .Dexterity => [.Acrobatics, .SleightOfHand, .Stealth]
  | .Constitution => []
  | .Intelligence => [.Arcana, .History, .Investigation, .Nature, .Religion]
  | .Wisdom => [.AnimalHandling, .Insight, .Medicine, .Perception, .Survival]
  | .Charisma => [.Deception, .Intimidation, .Performance, .Persuasion]

/-- Rust `<Ability as FromStr>::from_str`: the `match s` over string literals,
as a sequential comparison chain. -/
def Ability.from_str (s : String) : Except String Ability :=
  if s = "Strength" ∨ s = "STR" then Except.ok .Strength
  else if s = "Dexterity" ∨ s = "DEX" then Except.ok .Dexterity
  else if s = "Constitution" ∨ s = "CON" then Except.ok .Constitution
  else if s = "Intelligence" ∨ s = "INT" then Except.ok .Intelligence
  else if s = "Wisdom" ∨ s = "WIS" then Except.ok .Wisdom
  else if s = "Charisma" ∨ s = "CHA" then Except.ok .Charisma
  else Except.error "Unknown ability"

/-- Rust `Skill::all` -/
def Skill.all : List Skill :=
  [.Acrobatics, .AnimalHandling, .Arcana, .Athletics, .Deception, .History,
   .Insight, .Intimidation, .Investigation, .Medicine, .Nature, .Perception,
   .Performance, .Persuasion, .Religion, .SleightOfHand, .Stealth, .Survival]

/-- Rust `Skill::name` -/
def Skill.name : Skill → String
  | .Acrobatics => "Acrobatics"
  | .AnimalHandling => "Animal Handling"
  | .Arcana => "Arcana"
  | .Athletics => "Athletics"
  | .Deception => "Deception"
  | .History => "History"
  | .Insight => "Insight"
  | .Intimidation => "Intimidation"
  | .Investigation => "Investigation"
  | .Medicine => "Medicine"
  | .Nature => "Nature"
  | .Perception => "Perception"
  | .Performance => "Performance"
  | .Persuasion => "Persuasion"
  | .Religion => "Religion"
  | .SleightOfHand => "Sleight of Hand"
  | .Stealth => "Stealth"
  | .Survival => "Survival"

/-- Rust `Skill::ability`: the static Skill → Ability table. -/
def Skill.ability : Skill → Ability
  | .Acrobatics | .SleightOfHand | .Stealth => .Dexterity
  | .Athletics => .Strength
  | .AnimalHandling | .Insight | .Medicine | .Perception | .Survival => .Wisdom
  | .Arcana | .History | .Investigation | .Nature | .Religion => .Intelligence
  | .Deception | .Intimidation | .Performance | .Persuasion => .Charisma

/-- Rust `<Skill as FromStr>::from_str`: exact full names only. -/
def Skill.from_str (s : String) : Except String Skill :=
  if s = "Acrobatics" then Except.ok .Acrobatics
  else if s = "Animal Handling" then Except.ok .AnimalHandling
  else if s = "Arcana" then Except.ok .Arcana
  else if s = "Athletics" then Except.ok .Athletics
  else if s = "Deception" then Except.ok .Deception
  else if s = "History" then Except.ok .History
  else if s = "Insight" then Except.ok .Insight
  else if s = "Intimidation" then Except.ok .Intimidation
  else if s = "Investigation" then Except.ok .Investigation
  else if s = "Medicine" then Except.ok .Medicine
  else if s = "Nature" then Except.ok .Nature
  else if s = "Perception" then Except.ok .Perception
  else if s = "Performance" then Except.ok .Performance
  else if s = "Persuasion" then Except.ok .Persuasion
  else if s = "Religion" then Except.ok .Religion
  else if s = "Sleight of Hand" then Except.ok .SleightOfHand
  else if s = "Stealth" then Except.ok .Stealth
  else if s = "Survival" then Except.ok .Survival
  else Except.error "Unknown skill"

/-- The `Abilities` struct: one `AbilityScore` per ability. -/
structure Abilities where
  strength : AbilityScore
  dexterity : AbilityScore
  constitution : AbilityScore
  intelligence : AbilityScore
  wisdom : AbilityScore
  charisma : AbilityScore
deriving DecidableEq, Repr

/-- Rust `Abilities::with_uniform` -/
def Abilities.with_uniform (value : AbilityScore) : Abilities :=
  ⟨value, value, value, value, value, value⟩

/-- Rust `Abilities::new` -/
def Abilities.new : Abilities :=
  Abilities.with_uniform AbilityScore.DEFAULT

/-- Rust `<Abilities as Default>::default` -/
def Abilities.mk_default : Abilities :=
  Abilities.new

/-- Rust `<Abilities as Index<Ability>>::index`: read `abilities[ability]`. -/
def Abilities.index (a : Abilities) : Ability → AbilityScore
  | .Strength => a.strength
  | .Dexterity => a.dexterity
  | .Constitution => a.constitution
  | .Intelligence => a.intelligence
  | .Wisdom => a.wisdom
  | .Charisma => a.charisma

/-- Rust `<Abilities as IndexMut<Ability>>::index_mut` followed by assignment:
`abilities[ability] = score`. -/
def Abilities.update (a : Abilities) (ability : Ability) (score : AbilityScore) :
    Abilities :=
  match ability with
  | .Strength => { a with strength := score }
  | .Dexterity => { a with dexterity := score }
  | .Constitution => { a with constitution := score }
  | .Intelligence => { a with intelligence := score }
  | .Wisdom => { a with wisdom := score }
  | .Charisma => { a with charisma := score }

/-- Rust `Abilities::iter`: `(ability, self[ability])` pairs in `Ability::all` order. -/
def Abilities.iter (a : Abilities) : List (Ability × AbilityScore) :=
  Ability.all.map (fun ability => (ability, a.index ability))

/-- The `SkillLevel` enum. -/
inductive SkillLevel where
  | Proficient
  | Expertise
deriving DecidableEq, Repr

/-- The `SkillProficiencies` struct: two bit-sets over `Skill`. -/
structure SkillProficiencies where
  proficient : Finset Skill
  expertise : Finset Skill
deriving DecidableEq

/-- Rust `SkillProficiencies::new`: both sets empty. -/
def SkillProficiencies.new : SkillProficiencies :=
  ⟨∅, ∅⟩

/-- Rust `SkillProficiencies::is_proficient` -/
def SkillProficiencies.is_proficient (p : SkillProficiencies) (skill : Skill) : Bool :=
  decide (skill ∈ p.proficient)

/-- Rust `SkillProficiencies::has_expertise` -/
def SkillProficiencies.has_expertise (p : SkillProficiencies) (skill : Skill) : Bool :=
  decide (skill ∈ p.expertise)

/-- Rust `SkillProficiencies::get_proficiency` -/
def SkillProficiencies.get_proficiency (p : SkillProficiencies) (skill : Skill) :
    Option SkillLevel :=
  if p.has_expertise skill then some .Expertise
  else if p.is_proficient skill then some .Proficient
  else none

/-- Rust `SkillProficiencies::set_proficiency` -/
def SkillProficiencies.set_proficiency (p : SkillProficiencies) (skill : Skill)
    (proficiency : SkillLevel) : SkillProficiencies :=
  match proficiency with
  | .Proficient => ⟨insert skill p.proficient, p.expertise.erase skill⟩
  | .Expertise => ⟨p.proficient.erase skill, insert skill p.expertise⟩

/-- Rust `SkillProficiencies::set_proficiencies` -/
def SkillProficiencies.set_proficiencies (p : SkillProficiencies)
    (skills : List (Skill × SkillLevel)) : SkillProficiencies :=
  skills.foldl (fun acc pair => acc.set_proficiency pair.1 pair.2) p

/-- Rust `SkillProficiencies::set_proficient` -/
def SkillProficiencies.set_proficient (p : SkillProficiencies) (skill : Skill) :
    SkillProficiencies :=
  p.set_proficiency skill .Proficient

/-- Rust `SkillProficiencies::set_expertise` -/
def SkillProficiencies.set_expertise (p : SkillProficiencies) (skill : Skill) :
    SkillProficiencies :=
  p.set_proficiency skill .Expertise

/-- Rust `SkillProficiencies::clear_proficiency` -/
def SkillProficiencies.clear_proficiency (p : SkillProficiencies) (skill : Skill) :
    SkillProficiencies :=
  ⟨p.proficient.erase skill, p.expertise.erase skill⟩

/-- Rust `SkillProficiencies::clear_all` -/
def SkillProficiencies.clear_all (_ : SkillProficiencies) : SkillProficiencies :=
  ⟨∅, ∅⟩

/-- Rust `SkillProficiencies::with_proficiencies` -/
def SkillProficiencies.with_proficiencies (skills : List (Skill × SkillLevel)) :
    SkillProficiencies :=
  SkillProficiencies.new.set_proficiencies skills

/-- Rust `SkillProficiencies::iter`: skills with a level, in `Skill::all` order. -/
def SkillProficiencies.iter (p : SkillProficiencies) : List (Skill × SkillLevel) :=
  Skill.all.filterMap (fun skill =>
    if p.has_expertise skill then some (skill, .Expertise)
    else if p.is_proficient skill then some (skill, .Proficient)
    else none)

/-- One public mutating operation on `SkillProficiencies`. -/
inductive ProfOp where
  | setProficient (skill : Skill)
  | setExpertise (skill : Skill)
  | setProficiency (skill : Skill) (level : SkillLevel)
  | setProficiencies (skills : List (Skill × SkillLevel))
  | clearProficiency (skill : Skill)
  | clearAll

/-- Apply one public mutating operation. -/
def ProfOp.app (p : SkillProficiencies) : ProfOp → SkillProficiencies
  | .setProficient skill => p.set_proficient skill
  | .setExpertise skill => p.set_expertise skill
  | .setProficiency skill level => p.set_proficiency skill level
  | .setProficiencies skills => p.set_proficiencies skills
  | .clearProficiency skill => p.clear_proficiency skill
  | .clearAll => p.clear_all

/-- Run a finite sequence of public mutating operations from a state. -/
def ProfOp.runFrom (p : SkillProficiencies) (ops : List ProfOp) : SkillProficiencies :=
  ops.foldl ProfOp.app p

/-- The score → modifier table, exactly as enumerated in the source's
`modifier` unit test (and in the spec). -/
def modifierTable : List (Nat × Int) :=
  [(1, -5), (2, -4), (3, -4), (4, -3), (5, -3), (6, -2), (7, -2), (8, -1),
   (9, -1), (10, 0), (11, 0), (12, 1), (13, 1), (14, 2), (15, 2), (16, 3),
   (17, 3), (18, 4), (19, 4), (20, 5), (21, 5), (22, 6), (23, 6), (24, 7),
   (25, 7), (26, 8), (27, 8), (28, 9), (29, 9), (30, 10)]

/-- The twelve strings `Ability::from_str` accepts: each full name and its
3-letter abbreviation. -/
def abilityNames : List String :=
  ["Strength", "STR", "Dexterity", "DEX", "Constitution", "CON",
   "Intelligence", "INT", "Wisdom", "WIS", "Charisma", "CHA"]

/-- The eighteen full names `Skill::from_str` accepts. -/
def skillNames : List String :=
  ["Acrobatics", "Animal Handling", "Arcana", "Athletics", "Deception",
   "History", "Insight", "Intimidation", "Investigation", "Medicine",
   "Nature", "Perception", "Performance", "Persuasion", "Religion",
   "Sleight of Hand", "Stealth", "Survival"]

/-- C1: for every ability score value in `1..=30`, `modifier().value()` is
floor division of the score minus ten by two (rounding toward negative
infinity), and the (score, modifier) pair is in the exact table
1→-5, 2,3→-4, …, 30→10. -/
theorem claim_C1 (s : Nat) (h1 : 1 ≤ s) (h2 : s ≤ 30) :
    (AbilityScore.modifier ⟨s⟩).value = Int.fdiv ((s : Int) - 10) 2 ∧
    (s, (AbilityScore.modifier ⟨s⟩).value) ∈ modifierTable := by
  interval_cases s <;> exact ⟨by decide, by decide⟩

/-- Witness for C1 at score 15. -/
theorem claim_C1_witness :
    (AbilityScore.modifier ⟨15⟩).value = Int.fdiv ((15 : Int) - 10) 2 ∧
    ((15 : Nat), (AbilityScore.modifier ⟨15⟩).value) ∈ modifierTable :=
  claim_C1 15 (by decide) (by decide)

/-- C2: for every level value in `1..=20`, `proficiency_bonus().value()`
follows the step table: 1–4→2, 5–8→3, 9–12→4, 13–16→5, 17–20→6. -/
theorem claim_C2 (v : Nat) (h1 : 1 ≤ v) (h2 : v ≤ 20) :
    (Level.proficiency_bonus ⟨v⟩).map ProficiencyBonus.value =
      some (if v ≤ 4 then 2 else if v ≤ 8 then 3 else if v ≤ 12 then 4
            else if v ≤ 16 then 5 else 6) := by
  interval_cases v <;> decide

/-- Witness for C2 at level 9. -/
theorem claim_C2_witness :
    (Level.proficiency_bonus ⟨9⟩).map ProficiencyBonus.value =
      some (if (9 : Nat) ≤ 4 then 2 else if (9 : Nat) ≤ 8 then 3
            else if (9 : Nat) ≤ 12 then 4 else if (9 : Nat) ≤ 16 then 5 else 6) :=
  claim_C2 9 (by decide) (by decide)

/-- C3: for each bounded scalar type and every raw input of the underlying
machine width, `new_clamped` returns the nearest in-range value — `MIN`
below range, `MAX` above range, the input unchanged inside — and is total. -/
theorem claim_C3 (v : Nat) (hv : v < 256) (x : Int)
    (hx1 : -128 ≤ x) (hx2 : x < 128) :
    (AbilityScore.new_clamped v).value = max 1 (min 30 v) ∧
    (AbilityModifier.new_clamped x).value = max (-5) (min 10 x) ∧
    (Level.new_clamped v).value = max 1 (min 20 v) ∧
    (ProficiencyBonus.new_clamped v).value = max 2 (min 9 v) := by
  refine ⟨?_, ?_, ?_, ?_⟩
  · unfold AbilityScore.new_clamped
    split_ifs with h1 h2 <;>
      simp_all [AbilityScore.MIN, AbilityScore.MAX] <;> omega
  · unfold AbilityModifier.new_clamped
    split_ifs with h1 h2 <;>
      simp_all [AbilityModifier.MIN, AbilityModifier.MAX] <;> omega
  · unfold Level.new_clamped
    split_ifs with h1 h2 <;>
      simp_all [Level.MIN, Level.MAX] <;> omega
  · unfold ProficiencyBonus.new_clamped
    split_ifs with h1 h2 <;>
      simp_all [ProficiencyBonus.MIN, ProficiencyBonus.MAX] <;> omega

/-- Witness for C3 at raw inputs 0 and -128. -/
theorem claim_C3_witness :
    (AbilityScore.new_clamped 0).value = max 1 (min 30 0) ∧
    (AbilityModifier.new_clamped (-128)).value = max (-5) (min 10 (-128)) ∧
    (Level.new_clamped 0).value = max 1 (min 20 0) ∧
    (ProficiencyBonus.new_clamped 0).value = max 2 (min 9 0) :=
  claim_C3 0 (by decide) (-128) (by decide) (by decide)

/-- C4: for each bounded scalar type and every raw input of the underlying
machine width, `try_new` succeeds with the input unchanged exactly on
in-range inputs and otherwise returns the fixed below-`MIN` or
above-`MAX` message, and the two messages are distinct. -/
theorem claim_C4 (v : Nat) (hv : v < 256) (x : Int)
    (hx1 : -128 ≤ x) (hx2 : x < 128) :
    (AbilityScore.try_new v =
      if 1 ≤ v ∧ v ≤ 30 then Except.ok ⟨v⟩
      else if v < 1 then Except.error "Ability score cannot be less than 1"
      else Except.error "Ability score cannot be greater than 30") ∧
    (("Ability score cannot be less than 1" : String)
      == "Ability score cannot be greater than 30") = false ∧
    (AbilityModifier.try_new x =
      if -5 ≤ x ∧ x ≤ 10 then Except.ok ⟨x⟩
      else if x < -5 then Except.error "Ability modifier cannot be less than -5"
      else Except.error "Ability modifier cannot be greater than 10") ∧
    (("Ability modifier cannot be less than -5" : String)
      == "Ability modifier cannot be greater than 10") = false ∧
    (Level.try_new v =
      if 1 ≤ v ∧ v ≤ 20 then Except.ok ⟨v⟩
      else if v < 1 then Except.error "Level cannot be less than 1"
      else Except.error "Level cannot be greater than 20") ∧
    (("Level cannot be less than 1" : String)
      == "Level cannot be greater than 20") = false ∧
    (ProficiencyBonus.try_new v =
      if 2 ≤ v ∧ v ≤ 9 then Except.ok ⟨v⟩
      else if v < 2 then Except.error "Proficiency bonus cannot be less than 2"
      else Except.error "Proficiency bonus cannot be greater than 9") ∧
    (("Proficiency bonus cannot be less than 2" : String)
      == "Proficiency bonus cannot be greater than 9") = false := by
  refine ⟨?_, by decide, ?_, by decide, ?_, by decide, ?_, by decide⟩
  · unfold AbilityScore.try_new
    simp only [AbilityScore.MIN, AbilityScore.MAX]
    split_ifs <;> first | rfl | omega
  · unfold AbilityModifier.try_new
    simp only [AbilityModifier.MIN, AbilityModifier.MAX]
    split_ifs <;> first | rfl | omega
  · unfold Level.try_new
    simp only [Level.MIN, Level.MAX]
    split_ifs <;> first | rfl | omega
  · unfold ProficiencyBonus.try_new
    simp only [ProficiencyBonus.MIN, ProficiencyBonus.MAX]
    split_ifs <;> first | rfl | omega

/-- Witness for C4 at raw inputs 15 and 3. -/
theorem claim_C4_witness :
    (AbilityScore.try_new 15 =
      if 1 ≤ 15 ∧ 15 ≤ 30 then Except.ok ⟨15⟩
      else if 15 < 1 then Except.error "Ability score cannot be less than 1"
      else Except.error "Ability score cannot be greater than 30") ∧
    (("Ability score cannot be less than 1" : String)
      == "Ability score cannot be greater than 30") = false ∧
    (AbilityModifier.try_new 3 =
      if -5 ≤ (3 : Int) ∧ (3 : Int) ≤ 10 then Except.ok ⟨3⟩
      else if (3 : Int) < -5 then Except.error "Ability modifier cannot be less than -5"
      else Except.error "Ability modifier cannot be greater than 10") ∧
    (("Ability modifier cannot be less than -5" : String)
      == "Ability modifier cannot be greater than 10") = false ∧
    (Level.try_new 15 =
      if 1 ≤ 15 ∧ 15 ≤ 20 then Except.ok ⟨15⟩
      else if 15 < 1 then Except.error "Level cannot be less than 1"
      else Except.error "Level cannot be greater than 20") ∧
    (("Level cannot be less than 1" : String)
      == "Level cannot be greater than 20") = false ∧
    (ProficiencyBonus.try_new 15 =
      if 2 ≤ 15 ∧ 15 ≤ 9 then Except.ok ⟨15⟩
      else if 15 < 2 then Except.error "Proficiency bonus cannot be less than 2"
      else Except.error "Proficiency bonus cannot be greater than 9") ∧
    (("Proficiency bonus cannot be less than 2" : String)
      == "Proficiency bonus cannot be greater than 9") = false :=
  claim_C4 15 (by decide) 3 (by decide) (by decide)

/-- C5: the two static tables agree bidirectionally — every skill appears in
its own ability's skill list, and every skill listed under an ability maps
back to that ability. -/
theorem claim_C5 (s : Skill) (a : Ability) :
    s ∈ (Skill.ability s).skills ∧
    (a.skills).all (fun t => Skill.ability t == a) = true := by
  refine ⟨?_, ?_⟩ <;> revert s a <;> decide

/-- Witness for C5 at Stealth and Dexterity. -/
theorem claim_C5_witness :
    Skill.Stealth ∈ (Skill.ability .Stealth).skills ∧
    (Ability.skills .Dexterity).all (fun t => Skill.ability t == .Dexterity) = true :=
  claim_C5 .Stealth .Dexterity

/-- Disjointness of the proficient and expertise sets. -/
def profInv (p : SkillProficiencies) : Prop :=
  ∀ s : Skill, s ∈ p.proficient → s ∉ p.expertise

lemma profInv_new : profInv SkillProficiencies.new := by
  intro s hs
  simp [SkillProficiencies.new] at hs

lemma profInv_set_proficiency (p : SkillProficiencies) (skill : Skill)
    (level : SkillLevel) (h : profInv p) :
    profInv (p.set_proficiency skill level) := by
  cases level with
  | Proficient =>
      intro s hs hmem
      simp only [SkillProficiencies.set_proficiency, Finset.mem_insert] at hs
      simp only [SkillProficiencies.set_proficiency, Finset.mem_erase] at hmem
      rcases hs with hs | hs
      · exact hmem.1 hs
      · exact h s hs hmem.2
  | Expertise =>
      intro s hs hmem
      simp only [SkillProficiencies.set_proficiency, Finset.mem_erase] at hs
      simp only [SkillProficiencies.set_proficiency, Finset.mem_insert] at hmem
      rcases hmem with hmem | hmem
      · exact hs.1 hmem
      · exact h s hs.2 hmem

lemma profInv_set_proficiencies (skills : List (Skill × SkillLevel)) :
    ∀ p : SkillProficiencies, profInv p → profInv (p.set_proficiencies skills) := by
  induction skills with
  | nil => intro p h; exact h
  | cons head tail ih =>
      intro p h
      exact ih _ (profInv_set_proficiency p head.1 head.2 h)

lemma profInv_app (p : SkillProficiencies) (op : ProfOp) (h : profInv p) :
    profInv (ProfOp.app p op) := by
  cases op with
  | setProficient skill => exact profInv_set_proficiency p skill .Proficient h
  | setExpertise skill => exact profInv_set_proficiency p skill .Expertise h
  | setProficiency skill level => exact profInv_set_proficiency p skill level h
  | setProficiencies skills => exact profInv_set_proficiencies skills p h
  | clearProficiency skill =>
      intro s hs
      simp only [ProfOp.app, SkillProficiencies.clear_proficiency,
        Finset.mem_erase] at hs ⊢
      exact fun hmem => h s hs.2 hmem.2
  | clearAll =>
      intro s hs
      simp [ProfOp.app, SkillProficiencies.clear_all] at hs

lemma profInv_runFrom (ops : List ProfOp) :
    ∀ p : SkillProficiencies, profInv p → profInv (ProfOp.runFrom p ops) := by
  induction ops with
  | nil => intro p h; exact h
  | cons head tail ih =>
      intro p h
      exact ih _ (profInv_app p head h)

/-- C6: in every state reachable from `new()` by the public mutating
operations, no skill is simultaneously proficient and expert; and from any
state, setting Proficient then Expertise (or the reverse) on a skill leaves
exactly the later level. -/
theorem claim_C6 :
    (∀ (ops : List ProfOp) (s : Skill),
      ((ProfOp.runFrom SkillProficiencies.new ops).is_proficient s &&
       (ProfOp.runFrom SkillProficiencies.new ops).has_expertise s) = false) ∧
    (∀ (p : SkillProficiencies) (X : Skill),
      ((p.set_proficient X).set_expertise X).is_proficient X = false ∧
      ((p.set_proficient X).set_expertise X).has_expertise X = true ∧
      ((p.set_expertise X).set_proficient X).has_expertise X = false ∧
      ((p.set_expertise X).set_proficient X).is_proficient X = true) := by
  constructor
  · intro ops s
    have h := profInv_runFrom ops SkillProficiencies.new profInv_new s
    by_cases hp : s ∈ (ProfOp.runFrom SkillProficiencies.new ops).proficient
    · have hq := h hp
      simp [SkillProficiencies.is_proficient, SkillProficiencies.has_expertise, hq]
    · simp [SkillProficiencies.is_proficient, hp]
  · intro p X
    refine ⟨?_, ?_, ?_, ?_⟩ <;>
      simp [SkillProficiencies.set_proficient, SkillProficiencies.set_expertise,
        SkillProficiencies.set_proficiency, SkillProficiencies.is_proficient,
        SkillProficiencies.has_expertise]

/-- C7: `Ability::from_str` succeeds exactly on the six full names and six
abbreviations (name and abbreviation parsing to the same variant),
`Skill::from_str` exactly on the eighteen full names (case-sensitive, no
abbreviations), and every other input yields the unknown-name error. -/
theorem claim_C7 (str : String) :
    ((Ability.from_str str).isOk = true ↔ str ∈ abilityNames) ∧
    (Ability.from_str str = Except.error "Unknown ability" ∨
      (Ability.from_str str).isOk = true) ∧
    ((Skill.from_str str).isOk = true ↔ str ∈ skillNames) ∧
    (Skill.from_str str = Except.error "Unknown skill" ∨
      (Skill.from_str str).isOk = true) ∧
    (Ability.from_str "Strength" = Except.ok .Strength ∧
     Ability.from_str "STR" = Except.ok .Strength ∧
     Ability.from_str "Dexterity" = Except.ok .Dexterity ∧
     Ability.from_str "DEX" = Except.ok .Dexterity ∧
     Ability.from_str "Constitution" = Except.ok .Constitution ∧
     Ability.from_str "CON" = Except.ok .Constitution ∧
     Ability.from_str "Intelligence" = Except.ok .Intelligence ∧
     Ability.from_str "INT" = Except.ok .Intelligence ∧
     Ability.from_str "Wisdom" = Except.ok .Wisdom ∧
     Ability.from_str "WIS" = Except.ok .Wisdom ∧
     Ability.from_str "Charisma" = Except.ok .Charisma ∧
     Ability.from_str "CHA" = Except.ok .Charisma) ∧
    Skill.from_str "Sleight of Hand" = Except.ok .SleightOfHand ∧
    Skill.from_str "sleight of hand" = Except.error "Unknown skill" := by
  refine ⟨?_, ?_, ?_, ?_, by decide, by decide, by decide⟩
  · constructor
    · intro hOk
      unfold Ability.from_str at hOk
      simp only [abilityNames, List.mem_cons, List.not_mem_nil, or_false]
      split_ifs at hOk with h1 h2 h3 h4 h5 h6
      · tauto
      · tauto
      · tauto
      · tauto
      · tauto
      · tauto
      · exact absurd hOk (by decide)
    · intro hmem
      simp only [abilityNames, List.mem_cons, List.not_mem_nil, or_false] at hmem
      rcases hmem with h | h | h | h | h | h | h | h | h | h | h | h <;>
        subst h <;> decide
  · unfold Ability.from_str
    split_ifs <;> first | exact Or.inl rfl | exact Or.inr rfl
  · by_cases h1 : str = "Acrobatics"
    · subst h1; decide
    by_cases h2 : str = "Animal Handling"
    · subst h2; decide
    by_cases h3 : str = "Arcana"
    · subst h3; decide
    by_cases h4 : str = "Athletics"
    · subst h4; decide
    by_cases h5 : str = "Deception"
    · subst h5; decide
    by_cases h6 : str = "History"
    · subst h6; decide
    by_cases h7 : str = "Insight"
    · subst h7; decide
    by_cases h8 : str = "Intimidation"
    · subst h8; decide
    by_cases h9 : str = "Investigation"
    · subst h9; decide
    by_cases h10 : str = "Medicine"
    · subst h10; decide
    by_cases h11 : str = "Nature"
    · subst h11; decide
    by_cases h12 : str = "Perception"
    · subst h12; decide
    by_cases h13 : str = "Performance"
    · subst h13; decide
    by_cases h14 : str = "Persuasion"
    · subst h14; decide
    by_cases h15 : str = "Religion"
    · subst h15; decide
    by_cases h16 : str = "Sleight of Hand"
    · subst h16; decide
    by_cases h17 : str = "Stealth"
    · subst h17; decide
    by_cases h18 : str = "Survival"
    · subst h18; decide
    have hres : Skill.from_str str = Except.error "Unknown skill" := by
      unfold Skill.from_str
      rw [if_neg h1, if_neg h2, if_neg h3, if_neg h4, if_neg h5, if_neg h6,
        if_neg h7, if_neg h8, if_neg h9, if_neg h10, if_neg h11, if_neg h12,
        if_neg h13, if_neg h14, if_neg h15, if_neg h16, if_neg h17, if_neg h18]
    rw [hres]
    simp only [skillNames, List.mem_cons, List.not_mem_nil, or_false]
    constructor
    · intro h
      exact absurd h (by decide)
    · intro h
      tauto
  · by_cases h1 : str = "Acrobatics"
    · subst h1; exact Or.inr (by decide)
    by_cases h2 : str = "Animal Handling"
    · subst h2; exact Or.inr (by decide)
    by_cases h3 : str = "Arcana"
    · subst h3; exact Or.inr (by decide)
    by_cases h4 : str = "Athletics"
    · subst h4; exact Or.inr (by decide)
    by_cases h5 : str = "Deception"
    · subst h5; exact Or.inr (by decide)
    by_cases h6 : str = "History"
    · subst h6; exact Or.inr (by decide)
    by_cases h7 : str = "Insight"
    · subst h7; exact Or.inr (by decide)
    by_cases h8 : str = "Intimidation"
    · subst h8; exact Or.inr (by decide)
    by_cases h9 : str = "Investigation"
    · subst h9; exact Or.inr (by decide)
    by_cases h10 : str = "Medicine"
    · subst h10; exact Or.inr (by decide)
    by_cases h11 : str = "Nature"
    · subst h11; exact Or.inr (by decide)
    by_cases h12 : str = "Perception"
    · subst h12; exact Or.inr (by decide)
    by_cases h13 : str = "Performance"
    · subst h13; exact Or.inr (by decide)
    by_cases h14 : str = "Persuasion"
    · subst h14; exact Or.inr (by decide)
    by_cases h15 : str = "Religion"
    · subst h15; exact Or.inr (by decide)
    by_cases h16 : str = "Sleight of Hand"
    · subst h16; exact Or.inr (by decide)
    by_cases h17 : str = "Stealth"
    · subst h17; exact Or.inr (by decide)
    by_cases h18 : str = "Survival"
    · subst h18; exact Or.inr (by decide)
    refine Or.inl ?_
    unfold Skill.from_str
    rw [if_neg h1, if_neg h2, if_neg h3, if_neg h4, if_neg h5, if_neg h6,
      if_neg h7, if_neg h8, if_neg h9, if_neg h10, if_neg h11, if_neg h12,
      if_neg h13, if_neg h14, if_neg h15, if_neg h16, if_neg h17, if_neg h18]

/-- C8: `new()` and `default()` put the ability-score default (value 10) in
all six slots, matching `with_uniform` of the default, and `iter()` yields
exactly the six `(ability, self[ability])` pairs in declaration order. -/
theorem claim_C8 :
    Abilities.new = Abilities.with_uniform AbilityScore.DEFAULT ∧
    Abilities.mk_default = Abilities.new ∧
    (∀ ability : Ability,
      Abilities.new.index ability = AbilityScore.DEFAULT ∧
      (Abilities.new.index ability).value = 10) ∧
    (∀ a : Abilities, a.iter =
      [(.Strength, a.index .Strength), (.Dexterity, a.index .Dexterity),
       (.Constitution, a.index .Constitution),
       (.Intelligence, a.index .Intelligence),
       (.Wisdom, a.index .Wisdom), (.Charisma, a.index .Charisma)]) :=
  ⟨rfl, rfl, by decide, fun _ => rfl⟩

lemma bonus_match_isSome (v : Nat) (h1 : 1 ≤ v) (h2 : v ≤ 30) :
    (Level.bonus_match v).isSome = true := by
  unfold Level.bonus_match
  split_ifs <;> first | rfl | omega

/-- C9: the `unreachable!()` arm of `proficiency_bonus` is dead code for
every `Level` produced by `new_clamped` or `try_new`: the derivation always
lands in a table row and never panics. -/
theorem claim_C9 (v : Nat) :
    ((Level.new_clamped v).proficiency_bonus).isSome = true ∧
    ((Level.try_new v).toOption.all
      (fun l => (Level.proficiency_bonus l).isSome)) = true := by
  constructor
  · simp only [Level.new_clamped]
    split_ifs with h1 h2
    · decide
    · decide
    · obtain ⟨b, hb⟩ := Option.isSome_iff_exists.mp
        (bonus_match_isSome v (by simp [Level.MIN] at h1; omega)
          (by simp [Level.MAX] at h2; omega))
      simp [Level.proficiency_bonus, hb]
  · simp only [Level.try_new]
    split_ifs with h1 h2
    · rfl
    · rfl
    · obtain ⟨b, hb⟩ := Option.isSome_iff_exists.mp
        (bonus_match_isSome v (by simp [Level.MIN] at h1; omega)
          (by simp [Level.MAX] at h2; omega))
      simp [Option.all, Except.toOption, Level.proficiency_bonus, hb]

/-- C10: the indexed write `abilities[X] = score` is a frame-preserving
update — slot `X` afterwards holds `score` and every other slot is
unchanged. -/
theorem claim_C10 (a : Abilities) (X Y : Ability) (score : AbilityScore) :
    (a.update X score).index Y = if Y = X then score else a.index Y := by
  cases X <;> cases Y <;> simp [Abilities.update, Abilities.index]

/-- Witness for C7 at the input "STR". -/
theorem claim_C7_witness :
    (Ability.from_str "STR").isOk = true ↔ "STR" ∈ abilityNames :=
  (claim_C7 "STR").1

/-- Witness for C9 at raw input 0. -/
theorem claim_C9_witness :
    ((Level.new_clamped 0).proficiency_bonus).isSome = true :=
  (claim_C9 0).1

/-- Witness for C10: writing Strength leaves Dexterity unchanged. -/
theorem claim_C10_witness :
    (Abilities.new.update .Strength ⟨18⟩).index .Dexterity =
      if Ability.Dexterity = Ability.Strength then ⟨18⟩
      else Abilities.new.index .Dexterity :=
  claim_C10 Abilities.new .Strength .Dexterity ⟨18⟩
